import Mathlib

/-!
Shallow embedding of the inventory ledger and costing engine of the
control-stock repository: the IndexedDB-backed entity store
(`src/client/src/lib/db/index.ts`, `movements.ts`), the transaction
coordinator (`transactions.ts`), the analytics aggregator
(`analytics.ts`) and the snapshot serializer (backup module).

Modelling conventions:
* JavaScript numbers are embedded as `ℚ` (exact arithmetic on the
  formulas the spec states); `Date` values are milliseconds since epoch
  (`Int`), which is the full observable content of a JS `Date`.
* The object stores are lists of records; `get` is `List.find?` on the
  key, `put` replaces the record with the same key or appends.
* A stored product record may lack the `price`/`averageCost` fields
  (pre-v2 records, see the migration note in `db/index.ts`); these
  fields are therefore `Option ℚ` on the stored shape, `none` meaning
  the field is absent from the record.
* `generateUUID()` and `new Date()` are modelled by passing the fresh
  id and the current time as explicit arguments; `db.add` on a freshly
  generated UUID is modelled as `put`.
-/

namespace ControlStock

/-- A JS `Date`: milliseconds since the epoch. -/
abbrev Date := Int

/-- An ISO-8601 date string as produced by `Date.prototype.toISOString`.
Modelled by the millisecond value it denotes: `toISOString` prints the
date at millisecond precision and `new Date(isoString)` parses it back
exactly, so the encode/decode pair is faithfully represented by the
wrap/unwrap pair on this type. -/
structure DateString where
  ms : Int
  deriving DecidableEq, Repr

/-- `date.toISOString()` (backup module, `dateToString`). -/
def dateToString (date : Date) : DateString := ⟨date⟩

/-- `new Date(value)` on an ISO string (backup module, `stringToDate`). -/
def stringToDate (value : DateString) : Date := value.ms

/-- `MovementType` from `types/movement.ts`. -/
inductive MovementType
  | sale
  | production
  | adjustment
  deriving DecidableEq, Repr

/-- The denormalized `productSnapshot` embedded in every movement. -/
structure ProductSnapshot where
  name : String
  category : String
  deriving DecidableEq, Repr

/-- `Movement` from `types/movement.ts`. -/
structure Movement where
  id : String
  productId : String
  type : MovementType
  quantity : ℚ
  unitPrice : Option ℚ
  unitCost : Option ℚ
  totalAmount : ℚ
  averageCostAtTime : ℚ
  notes : Option String
  createdAt : Date
  productSnapshot : ProductSnapshot
  deriving DecidableEq, Repr

/-- A product record as stored in the `products` object store.
`price` and `averageCost` are optional: records written before the v2
schema migration lack both fields (`db/index.ts` migration comment);
`none` models the absent field. -/
structure StoredProduct where
  id : String
  name : String
  quantity : ℚ
  category : String
  notes : Option String
  price : Option ℚ
  averageCost : Option ℚ
  createdAt : Date
  updatedAt : Date
  deriving DecidableEq, Repr

/-- `Photo` from `types/photo.ts`; the two `Blob` payloads are byte
lists (a `Uint8Array` view of the blob contents). -/
structure Photo where
  id : String
  productId : String
  blob : List ℕ
  thumbnail : List ℕ
  mimeType : String
  size : ℚ
  compressedSize : ℚ
  width : ℚ
  height : ℚ
  createdAt : Date
  deriving DecidableEq, Repr

/-- The three object stores of `control-stock-db`. -/
structure DBState where
  products : List StoredProduct
  movements : List Movement
  photos : List Photo
  deriving DecidableEq, Repr

/-- `DB_VERSION` from `types/database.ts` (a JS number). -/
def DB_VERSION : ℚ := 3

-- ===========================================================================
-- Entity store primitives
-- ===========================================================================

/-- IndexedDB `put`: replace the record with the same key, or insert. -/
def putByKey (key : α → String) (l : List α) (x : α) : List α :=
  if l.any (fun y => key y == key x) then
    l.map (fun y => if key y == key x then x else y)
  else
    l ++ [x]

/-- IndexedDB `get` on the `products` store. -/
def lookupProduct (s : DBState) (id : String) : Option StoredProduct :=
  s.products.find? (fun p => p.id == id)

-- ===========================================================================
-- db/index.ts
-- ===========================================================================

/-- The in-place field defaulting `getProductById` applies to a record
lacking the `price` field: `p.price = 0; p.averageCost = 0`. -/
def migrateRecord (p : StoredProduct) : StoredProduct :=
  if p.price = none then { p with price := some 0, averageCost := some 0 } else p

/-- `getProductById` from `db/index.ts`: fetch the record by id and, when
it lacks a `price` field, write it back with `price = 0` and
`averageCost = 0` (the migration helper) before returning it. Returns
the possibly-updated store together with the result. -/
def getProductById (s : DBState) (id : String) : DBState × Option StoredProduct :=
  match lookupProduct s id with
  | none => (s, none)
  | some p =>
      if p.price = none then
        let p2 := { p with price := some 0, averageCost := some 0 }
        ({ s with products := putByKey StoredProduct.id s.products p2 }, some p2)
      else
        (s, some p)

/-- The partial update object passed to `updateProduct` by the
transaction functions (only these two fields are ever patched there). -/
structure ProductPatch where
  quantity : Option ℚ
  averageCost : Option ℚ
  deriving DecidableEq, Repr

/-- The spread `{ ...existing, ...data, id, createdAt, updatedAt: new Date() }`
inside `updateProduct`. -/
def applyPatch (existing : StoredProduct) (data : ProductPatch) (now : Date) : StoredProduct :=
  { existing with
    quantity := data.quantity.getD existing.quantity
    averageCost := match data.averageCost with
      | some v => some v
      | none => existing.averageCost
    updatedAt := now }

/-- Errors thrown by the core, one constructor per distinct `throw` site
(the source throws `Error` values with distinct messages; the payloads
of `insufficientStock`/`negativeStock` are the values interpolated into
the message). -/
inductive TxError
  | productNotFound
  | insufficientStock (available requested : ℚ)
  | invalidQuantity
  | invalidPrice
  | invalidCost
  | zeroAdjustment
  | negativeStock (current : ℚ)
  | updateTargetMissing
  deriving DecidableEq, Repr

/-- `updateProduct` from `db/index.ts`: re-read the record, merge the
patch, stamp `updatedAt`, and put it back. -/
def updateProduct (s : DBState) (id : String) (data : ProductPatch) (now : Date) :
    Except TxError (DBState × StoredProduct) :=
  match s.products.find? (fun p => p.id == id) with
  | none => .error .updateTargetMissing
  | some existing =>
      let updated := applyPatch existing data now
      .ok ({ s with products := putByKey StoredProduct.id s.products updated }, updated)

-- ===========================================================================
-- db/transactions.ts
-- ===========================================================================

/-- The common tail of the three transaction functions: with the
movement already persisted into `s2`, run `updateProduct` and package
the pair the entry point returns (an `updateProduct` throw propagates
with the movement write already visible — the known
non-atomicity of the source). -/
def commitUpdate (s2 : DBState) (id : String) (data : ProductPatch) (now : Date)
    (movement : Movement) : DBState × Except TxError (StoredProduct × Movement) :=
  match updateProduct s2 id data now with
  | .error e => (s2, .error e)
  | .ok (s3, updated) => (s3, .ok (updated, movement))

/-- Input of `registrarVenta`. -/
structure VentaInput where
  productId : String
  quantity : ℚ
  unitPrice : Option ℚ
  notes : Option String
  deriving DecidableEq, Repr

/-- Input of `registrarProduccion`. -/
structure ProduccionInput where
  productId : String
  quantity : ℚ
  unitCost : ℚ
  notes : Option String
  deriving DecidableEq, Repr

/-- Input of `registrarAjuste`. -/
structure AjusteInput where
  productId : String
  quantity : ℚ
  notes : Option String
  deriving DecidableEq, Repr

/-- Steps 2-6 of `registrarVenta`, after the product has been fetched
(`product` is the record `getProductById` returned, `s` the store state
after that call). -/
def ventaChecked (s : DBState) (product : StoredProduct) (input : VentaInput)
    (newId : String) (now : Date) : DBState × Except TxError (StoredProduct × Movement) :=
  if product.quantity < input.quantity then
    (s, .error (.insufficientStock product.quantity input.quantity))
  else if input.quantity ≤ 0 then
    (s, .error .invalidQuantity)
  else
    let unitPrice := input.unitPrice.getD (product.price.getD 0)
    if unitPrice ≤ 0 then
      (s, .error .invalidPrice)
    else
      let movement : Movement :=
        { id := newId
          productId := product.id
          type := .sale
          quantity := -input.quantity
          unitPrice := some unitPrice
          unitCost := none
          totalAmount := input.quantity * unitPrice
          averageCostAtTime := product.averageCost.getD 0
          notes := input.notes
          createdAt := now
          productSnapshot := ⟨product.name, product.category⟩ }
      let s2 := { s with movements := putByKey Movement.id s.movements movement }
      commitUpdate s2 product.id ⟨some (product.quantity - input.quantity), none⟩ now movement

/-- `registrarVenta` from `db/transactions.ts`. -/
def registrarVenta (s : DBState) (input : VentaInput) (newId : String) (now : Date) :
    DBState × Except TxError (StoredProduct × Movement) :=
  match getProductById s input.productId with
  | (s1, none) => (s1, .error .productNotFound)
  | (s1, some product) => ventaChecked s1 product input newId now

/-- Steps 2-5 of `registrarProduccion`, after the product fetch. -/
def produccionChecked (s : DBState) (product : StoredProduct) (input : ProduccionInput)
    (newId : String) (now : Date) : DBState × Except TxError (StoredProduct × Movement) :=
  if input.quantity ≤ 0 then
    (s, .error .invalidQuantity)
  else if input.unitCost < 0 then
    (s, .error .invalidCost)
  else
    let stockActual := product.quantity
    let costoActual := product.averageCost.getD 0
    let nuevoCostoPromedio : ℚ :=
      if stockActual = 0 then
        input.unitCost
      else
        (stockActual * costoActual + input.quantity * input.unitCost) /
          (stockActual + input.quantity)
    let movement : Movement :=
      { id := newId
        productId := product.id
        type := .production
        quantity := input.quantity
        unitPrice := none
        unitCost := some input.unitCost
        totalAmount := input.quantity * input.unitCost
        averageCostAtTime := nuevoCostoPromedio
        notes := input.notes
        createdAt := now
        productSnapshot := ⟨product.name, product.category⟩ }
    let s2 := { s with movements := putByKey Movement.id s.movements movement }
    commitUpdate s2 product.id
      ⟨some (product.quantity + input.quantity), some nuevoCostoPromedio⟩ now movement

/-- `registrarProduccion` from `db/transactions.ts`. -/
def registrarProduccion (s : DBState) (input : ProduccionInput) (newId : String) (now : Date) :
    DBState × Except TxError (StoredProduct × Movement) :=
  match getProductById s input.productId with
  | (s1, none) => (s1, .error .productNotFound)
  | (s1, some product) => produccionChecked s1 product input newId now

/-- Steps 2-5 of `registrarAjuste`, after the product fetch. -/
def ajusteChecked (s : DBState) (product : StoredProduct) (input : AjusteInput)
    (newId : String) (now : Date) : DBState × Except TxError (StoredProduct × Movement) :=
  if input.quantity = 0 then
    (s, .error .zeroAdjustment)
  else
    let nuevoStock := product.quantity + input.quantity
    if nuevoStock < 0 then
      (s, .error (.negativeStock product.quantity))
    else
      let movement : Movement :=
        { id := newId
          productId := product.id
          type := .adjustment
          quantity := input.quantity
          unitPrice := none
          unitCost := none
          totalAmount := 0
          averageCostAtTime := product.averageCost.getD 0
          notes := input.notes
          createdAt := now
          productSnapshot := ⟨product.name, product.category⟩ }
      let s2 := { s with movements := putByKey Movement.id s.movements movement }
      commitUpdate s2 product.id ⟨some nuevoStock, none⟩ now movement

/-- `registrarAjuste` from `db/transactions.ts`. -/
def registrarAjuste (s : DBState) (input : AjusteInput) (newId : String) (now : Date) :
    DBState × Except TxError (StoredProduct × Movement) :=
  match getProductById s input.productId with
  | (s1, none) => (s1, .error .productNotFound)
  | (s1, some product) => ajusteChecked s1 product input newId now

-- ===========================================================================
-- Transaction sequences
-- ===========================================================================

/-- One call to a transaction entry point, with the generated movement
id and the wall-clock time made explicit. -/
inductive TxEvent
  | venta (input : VentaInput) (newId : String) (now : Date)
  | produccion (input : ProduccionInput) (newId : String) (now : Date)
  | ajuste (input : AjusteInput) (newId : String) (now : Date)

/-- Run one transaction, returning the resulting state and whether the
call returned normally (`true`) or threw (`false`). -/
def applyTx (s : DBState) : TxEvent → DBState × Bool
  | .venta input newId now =>
      let r := registrarVenta s input newId now
      (r.1, r.2.toBool)
  | .produccion input newId now =>
      let r := registrarProduccion s input newId now
      (r.1, r.2.toBool)
  | .ajuste input newId now =>
      let r := registrarAjuste s input newId now
      (r.1, r.2.toBool)

/-- Run a sequence of transactions, keeping the state each call leaves
behind. -/
def runTxs (s : DBState) : List TxEvent → DBState
  | [] => s
  | e :: es => runTxs (applyTx s e).1 es

/-- Every call in the sequence commits (returns normally). -/
def allCommitted (s : DBState) : List TxEvent → Bool
  | [] => true
  | e :: es => (applyTx s e).2 && allCommitted (applyTx s e).1 es

-- ===========================================================================
-- analytics.ts
-- ===========================================================================

/-- The result record of `getFinancialSummary`. -/
structure FinancialSummary where
  totalRevenue : ℚ
  totalCosts : ℚ
  netProfit : ℚ
  profitMargin : ℚ
  totalSales : ℕ
  totalProductions : ℕ
  totalAdjustments : ℕ
  deriving DecidableEq, Repr

/-- The date-range filter at the top of `getFinancialSummary`. -/
def filteredMovements (s : DBState) (startDate endDate : Option Date) : List Movement :=
  if startDate.isSome || endDate.isSome then
    s.movements.filter (fun m =>
      (match startDate with
       | some sd => decide (¬ m.createdAt < sd)
       | none => true) &&
      (match endDate with
       | some ed => decide (¬ ed < m.createdAt)
       | none => true))
  else
    s.movements

/-- `sales.reduce((sum, m) => sum + m.totalAmount, 0)`. -/
def sumTotalAmount (ms : List Movement) : ℚ :=
  ms.foldl (fun sum m => sum + m.totalAmount) 0

/-- `sales.reduce((sum, m) => sum + Math.abs(m.quantity) * m.averageCostAtTime, 0)`. -/
def sumSoldCost (ms : List Movement) : ℚ :=
  ms.foldl (fun sum m => sum + |m.quantity| * m.averageCostAtTime) 0

/-- `allProducts.reduce((sum, p) => sum + p.quantity * p.averageCost, 0)`.
A record lacking the `averageCost` field is read as 0 here (in JS the
read yields `undefined`; no claim proved below depends on this corner). -/
def sumInventoryValue (ps : List StoredProduct) : ℚ :=
  ps.foldl (fun sum p => sum + p.quantity * p.averageCost.getD 0) 0

/-- `getFinancialSummary` from `analytics.ts`. The `Set` of production
product ids is modelled by direct membership in the production list. -/
def getFinancialSummary (s : DBState) (startDate endDate : Option Date) : FinancialSummary :=
  let allProducts := s.products
  let movements := filteredMovements s startDate endDate
  let sales := movements.filter (fun m => decide (m.type = .sale))
  let productions := movements.filter (fun m => decide (m.type = .production))
  let adjustments := movements.filter (fun m => decide (m.type = .adjustment))
  let totalRevenue := sumTotalAmount sales
  let inventoryValue := sumInventoryValue allProducts
  let soldProductsCost := sumSoldCost sales
  let totalCosts := inventoryValue + soldProductsCost
  let salesProfit := totalRevenue - soldProductsCost
  let profitMargin := if 0 < totalRevenue then salesProfit / totalRevenue * 100 else 0
  let netProfit := totalRevenue - totalCosts
  let productsWithInitialStock := allProducts.filter (fun p =>
    decide (0 < p.quantity) && !(productions.any (fun m => m.productId == p.id)))
  let totalProductions := productions.length + productsWithInitialStock.length
  { totalRevenue := totalRevenue
    totalCosts := totalCosts
    netProfit := netProfit
    profitMargin := profitMargin
    totalSales := sales.length
    totalProductions := totalProductions
    totalAdjustments := adjustments.length }

-- ===========================================================================
-- Snapshot serializer: base64 (backup module helpers)
-- ===========================================================================

/-- The base64 alphabet character for a sextet value below 64. -/
def sextetToChar (n : ℕ) : Char :=
  if n < 26 then Char.ofNat (65 + n)
  else if n < 52 then Char.ofNat (97 + (n - 26))
  else if n < 62 then Char.ofNat (48 + (n - 52))
  else if n = 62 then '+'
  else '/'

/-- The sextet value of a base64 alphabet character. -/
def charToSextet (c : Char) : ℕ :=
  if 65 ≤ c.toNat ∧ c.toNat ≤ 90 then c.toNat - 65
  else if 97 ≤ c.toNat ∧ c.toNat ≤ 122 then c.toNat - 97 + 26
  else if 48 ≤ c.toNat ∧ c.toNat ≤ 57 then c.toNat - 48 + 52
  else if c = '+' then 62
  else 63

/-- `btoa` over the byte values of the binary string built by
the loop in `arrayBufferToBase64` (`String.fromCharCode` on a byte is
identity on the code, so the binary string built by the loop is the byte list). -/
def btoa : List ℕ → List Char
  | [] => []
  | [a] =>
      [sextetToChar (a / 4), sextetToChar (a % 4 * 16), '=', '=']
  | [a, b] =>
      [sextetToChar (a / 4), sextetToChar (a % 4 * 16 + b / 16), sextetToChar (b % 16 * 4), '=']
  | a :: b :: c :: rest =>
      sextetToChar (a / 4) :: sextetToChar (a % 4 * 16 + b / 16) ::
        sextetToChar (b % 16 * 4 + c / 64) :: sextetToChar (c % 64) :: btoa rest

/-- `atob` on well-formed base64 text, producing the byte values that
the loop in `base64ToArrayBuffer` reads back with `charCodeAt`. -/
def atob : List Char → List ℕ
  | c1 :: c2 :: c3 :: c4 :: rest =>
      let s1 := charToSextet c1
      let s2 := charToSextet c2
      if c3 = '=' then
        [s1 * 4 + s2 / 16]
      else
        let s3 := charToSextet c3
        if c4 = '=' then
          [s1 * 4 + s2 / 16, s2 % 16 * 16 + s3 / 4]
        else
          (s1 * 4 + s2 / 16) :: (s2 % 16 * 16 + s3 / 4) ::
            (s3 % 4 * 64 + charToSextet c4) :: atob rest
  | _ => []

/-- `arrayBufferToBase64` from the backup module. -/
def arrayBufferToBase64 (buffer : List ℕ) : List Char := btoa buffer

/-- `base64ToArrayBuffer` from the backup module. -/
def base64ToArrayBuffer (base64 : List Char) : List ℕ := atob base64

/-- `blobToBase64` from the backup module (the blob bytes, encoded). -/
def blobToBase64 (blob : List ℕ) : List Char := arrayBufferToBase64 blob

/-- `base64ToBlob` from the backup module: decode the payload; the mime
type becomes the `type` of the new blob, which is not part of the payload. -/
def base64ToBlob (base64 : List Char) (mimeType : String) : List ℕ :=
  base64ToArrayBuffer base64

-- ===========================================================================
-- Snapshot serializer: envelope types and export (backup module)
-- ===========================================================================

/-- `SerializedProduct`: the stored record with dates as ISO strings. -/
structure SerializedProduct where
  id : String
  name : String
  quantity : ℚ
  category : String
  notes : Option String
  price : Option ℚ
  averageCost : Option ℚ
  createdAt : DateString
  updatedAt : DateString
  deriving DecidableEq, Repr

/-- `SerializedMovement`: the movement with `createdAt` as ISO string. -/
structure SerializedMovement where
  id : String
  productId : String
  type : MovementType
  quantity : ℚ
  unitPrice : Option ℚ
  unitCost : Option ℚ
  totalAmount : ℚ
  averageCostAtTime : ℚ
  notes : Option String
  createdAt : DateString
  productSnapshot : ProductSnapshot
  deriving DecidableEq, Repr

/-- `SerializedPhoto`: blob and thumbnail as base64 text, date as ISO. -/
structure SerializedPhoto where
  id : String
  productId : String
  mimeType : String
  size : ℚ
  compressedSize : ℚ
  width : ℚ
  height : ℚ
  createdAt : DateString
  blobBase64 : List Char
  thumbnailBase64 : List Char
  deriving DecidableEq, Repr

/-- `BackupFile`: the versioned envelope. -/
structure BackupFile where
  dbVersion : ℚ
  createdAt : DateString
  products : List SerializedProduct
  movements : List SerializedMovement
  photos : List SerializedPhoto
  deriving DecidableEq, Repr

/-- The product serialization inside `exportDatabase`. -/
def serializeProduct (p : StoredProduct) : SerializedProduct :=
  { id := p.id
    name := p.name
    quantity := p.quantity
    category := p.category
    notes := p.notes
    price := p.price
    averageCost := p.averageCost
    createdAt := dateToString p.createdAt
    updatedAt := dateToString p.updatedAt }

/-- The movement serialization inside `exportDatabase`. -/
def serializeMovement (m : Movement) : SerializedMovement :=
  { id := m.id
    productId := m.productId
    type := m.type
    quantity := m.quantity
    unitPrice := m.unitPrice
    unitCost := m.unitCost
    totalAmount := m.totalAmount
    averageCostAtTime := m.averageCostAtTime
    notes := m.notes
    createdAt := dateToString m.createdAt
    productSnapshot := m.productSnapshot }

/-- The photo serialization inside `exportDatabase`. -/
def serializePhoto (ph : Photo) : SerializedPhoto :=
  { id := ph.id
    productId := ph.productId
    mimeType := ph.mimeType
    size := ph.size
    compressedSize := ph.compressedSize
    width := ph.width
    height := ph.height
    createdAt := dateToString ph.createdAt
    blobBase64 := blobToBase64 ph.blob
    thumbnailBase64 := blobToBase64 ph.thumbnail }

/-- `exportDatabase` from the backup module. -/
def exportDatabase (s : DBState) (now : Date) : BackupFile :=
  { dbVersion := DB_VERSION
    createdAt := dateToString now
    products := s.products.map serializeProduct
    movements := s.movements.map serializeMovement
    photos := s.photos.map serializePhoto }

-- ===========================================================================
-- Snapshot serializer: import (backup module)
-- ===========================================================================

/-- Errors thrown by `readBackupFile`/`importDatabase`, one constructor
per distinct `throw` site. -/
inductive BackupError
  | notJsonFile
  | tooLarge
  | invalidJson
  | malformed
  | missingVersion
  | missingSections
  | futureVersion
  deriving DecidableEq, Repr

/-- The observations `readBackupFile` makes of a successfully parsed
JSON document that is an object: each field is `some` exactly when the
corresponding property passes the `typeof` or `Array.isArray`
check of the code. -/
structure ParsedBackup where
  dbVersion : Option ℚ
  createdAt : Option DateString
  products : Option (List SerializedProduct)
  movements : Option (List SerializedMovement)
  photos : Option (List SerializedPhoto)

/-- A successfully parsed JSON document: either not an object (or
`null`), or an object with the observed fields. -/
inductive JsonDoc
  | scalar
  | obj (data : ParsedBackup)

/-- A candidate backup file as handed to `readBackupFile`: the `.json`
check on its name, its byte size, and its parse result (`none` models
`JSON.parse` throwing). -/
structure RawFile where
  isJsonNamed : Bool
  size : ℕ
  content : Option JsonDoc

/-- `MAX_SIZE_BYTES` from `readBackupFile` (50 MB). -/
def MAX_SIZE_BYTES : ℕ := 50 * 1024 * 1024

/-- `readBackupFile` from the backup module: the validation sequence,
in source order, producing the typed envelope. -/
def readBackupFile (file : RawFile) (now : Date) : Except BackupError BackupFile :=
  if file.isJsonNamed = false then .error .notJsonFile
  else if MAX_SIZE_BYTES < file.size then .error .tooLarge
  else
    match file.content with
    | none => .error .invalidJson
    | some .scalar => .error .malformed
    | some (.obj data) =>
        match data.dbVersion with
        | none => .error .missingVersion
        | some v =>
            match data.products, data.movements, data.photos with
            | some ps, some ms, some phs =>
                .ok { dbVersion := v
                      createdAt := data.createdAt.getD (dateToString now)
                      products := ps
                      movements := ms
                      photos := phs }
            | _, _, _ => .error .missingSections

/-- The product deserialization inside `importDatabase`. -/
def deserializeProduct (p : SerializedProduct) : StoredProduct :=
  { id := p.id
    name := p.name
    quantity := p.quantity
    category := p.category
    notes := p.notes
    price := p.price
    averageCost := p.averageCost
    createdAt := stringToDate p.createdAt
    updatedAt := stringToDate p.updatedAt }

/-- The movement deserialization inside `importDatabase`. -/
def deserializeMovement (m : SerializedMovement) : Movement :=
  { id := m.id
    productId := m.productId
    type := m.type
    quantity := m.quantity
    unitPrice := m.unitPrice
    unitCost := m.unitCost
    totalAmount := m.totalAmount
    averageCostAtTime := m.averageCostAtTime
    notes := m.notes
    createdAt := stringToDate m.createdAt
    productSnapshot := m.productSnapshot }

/-- The photo deserialization inside `importDatabase`. -/
def deserializePhoto (sp : SerializedPhoto) : Photo :=
  { id := sp.id
    productId := sp.productId
    blob := base64ToBlob sp.blobBase64 sp.mimeType
    thumbnail := base64ToBlob sp.thumbnailBase64 sp.mimeType
    mimeType := sp.mimeType
    size := sp.size
    compressedSize := sp.compressedSize
    width := sp.width
    height := sp.height
    createdAt := stringToDate sp.createdAt }

/-- `importDatabase` from the backup module: reject future schema
versions, otherwise clear the three stores and put every record of the
artifact. The single `readwrite` transaction over the three stores
(committed by `tx.done`) is modelled as this one atomic state
transition; on rejection the returned state is the input state. -/
def importDatabase (s : DBState) (backup : BackupFile) : DBState × Except BackupError Unit :=
  if DB_VERSION < backup.dbVersion then
    (s, .error .futureVersion)
  else
    ({ products := backup.products.foldl
         (fun acc p => putByKey StoredProduct.id acc (deserializeProduct p)) []
       movements := backup.movements.foldl
         (fun acc m => putByKey Movement.id acc (deserializeMovement m)) []
       photos := backup.photos.foldl
         (fun acc sp => putByKey Photo.id acc (deserializePhoto sp)) [] },
     .ok ())

/-- The restore path of the UI: read and validate the chosen file and
then apply it (the composition of `readBackupFile` and `importDatabase`). -/
def importBackupFlow (s : DBState) (file : RawFile) (now : Date) :
    DBState × Except BackupError Unit :=
  match readBackupFile file now with
  | .error e => (s, .error e)
  | .ok backup => importDatabase s backup

-- ===========================================================================
-- Concrete fixtures used by witnesses and counterexamples
-- ===========================================================================

/-- Discriminator: is this error the insufficient-stock rejection? -/
def isInsufficientStock : TxError → Bool
  | .insufficientStock _ _ => true
  | _ => false

/-- A modern product record: 10 units in stock, price 100, average cost 4. -/
def prodA : StoredProduct :=
  { id := "p1", name := "mantel", quantity := 10, category := "Manteles",
    notes := none, price := some 100, averageCost := some 4,
    createdAt := 0, updatedAt := 0 }

/-- A pre-v2 product record lacking the price and averageCost fields. -/
def prodLegacy : StoredProduct :=
  { id := "p2", name := "manta vieja", quantity := 5, category := "Mantas",
    notes := none, price := none, averageCost := none,
    createdAt := 0, updatedAt := 0 }

/-- A store holding only the modern record. -/
def stateA : DBState := ⟨[prodA], [], []⟩

/-- A store holding only the legacy record. -/
def stateLegacy : DBState := ⟨[prodLegacy], [], []⟩

/-- A committed sale, production and adjustment against `stateA`. -/
def eventsA : List TxEvent :=
  [.venta ⟨"p1", 3, none, none⟩ "m1" 1,
   .produccion ⟨"p1", 5, 7, none⟩ "m2" 2,
   .ajuste ⟨"p1", -2, none⟩ "m3" 3]

/-- The product returned by the witness sale against `stateA`. -/
def saleProdA : StoredProduct :=
  { id := "p1", name := "mantel", quantity := 7, category := "Manteles",
    notes := none, price := some 100, averageCost := some 4,
    createdAt := 0, updatedAt := 1 }

/-- The movement returned by the witness sale against `stateA`. -/
def saleMovA : Movement :=
  { id := "m1", productId := "p1", type := .sale, quantity := -3,
    unitPrice := some 100, unitCost := none, totalAmount := 300,
    averageCostAtTime := 4, notes := none, createdAt := 1,
    productSnapshot := ⟨"mantel", "Manteles"⟩ }

/-- The product returned by the witness production against `stateA`. -/
def prodProdA : StoredProduct :=
  { id := "p1", name := "mantel", quantity := 15, category := "Manteles",
    notes := none, price := some 100, averageCost := some 5,
    createdAt := 0, updatedAt := 2 }

/-- The movement returned by the witness production against `stateA`. -/
def prodMovA : Movement :=
  { id := "m2", productId := "p1", type := .production, quantity := 5,
    unitPrice := none, unitCost := some 7, totalAmount := 35,
    averageCostAtTime := 5, notes := none, createdAt := 2,
    productSnapshot := ⟨"mantel", "Manteles"⟩ }

/-- A sale movement carrying a negative totalAmount (reachable via
`importDatabase` of an edited artifact, or via `updateMovement` with a
negative unitPrice), driving totalRevenue negative. -/
def negSaleMov : Movement :=
  { id := "mneg", productId := "px", type := .sale, quantity := -1,
    unitPrice := some (-10), unitCost := none, totalAmount := -10,
    averageCostAtTime := 0, notes := none, createdAt := 0,
    productSnapshot := ⟨"x", "y"⟩ }

/-- A dataset whose only sale movement has negative totalAmount. -/
def stateNegRevenue : DBState := ⟨[], [negSaleMov], []⟩

/-- A dataset with one ordinary committed sale in the ledger. -/
def stateSale : DBState := ⟨[prodA], [saleMovA], []⟩

/-- The empty target dataset. -/
def emptyDB : DBState := ⟨[], [], []⟩

/-- A photo with small binary payloads. -/
def photoA : Photo :=
  { id := "ph1", productId := "p1", blob := [0, 1, 255], thumbnail := [77, 97, 110],
    mimeType := "image/png", size := 3, compressedSize := 3, width := 1, height := 1,
    createdAt := 0 }

/-- A dataset with one record in each of the three stores. -/
def stateFull : DBState := ⟨[prodA], [saleMovA], [photoA]⟩

/-- A syntactically invalid candidate backup file. -/
def badJsonFile : RawFile := { isJsonNamed := true, size := 100, content := none }

/-- A well-shaped candidate backup file from a future schema version. -/
def futureFile : RawFile :=
  { isJsonNamed := true, size := 100,
    content := some (.obj
      { dbVersion := some 99, createdAt := some ⟨0⟩,
        products := some [], movements := some [], photos := some [] }) }

/-- The envelope `readBackupFile` produces for `futureFile`. -/
def futureBackup : BackupFile :=
  { dbVersion := 99, createdAt := ⟨0⟩, products := [], movements := [], photos := [] }

/-- A valid version-2 artifact holding one product. -/
def backupB : BackupFile :=
  { dbVersion := 2, createdAt := ⟨0⟩, products := [serializeProduct prodA],
    movements := [], photos := [] }

-- ===========================================================================
-- Store lemmas
-- ===========================================================================

theorem mem_putByKey {key : α → String} {l : List α} {x a : α}
    (h : a ∈ putByKey key l x) : a = x ∨ a ∈ l := by
  unfold putByKey at h
  split at h
  · obtain ⟨y, hy, hyx⟩ := List.mem_map.mp h
    by_cases hk : (key y == key x) = true
    · rw [if_pos hk] at hyx
      exact Or.inl hyx.symm
    · rw [if_neg hk] at hyx
      exact Or.inr (hyx ▸ hy)
  · rcases List.mem_append.mp h with h | h
    · exact Or.inr h
    · exact Or.inl (List.mem_singleton.mp h)

theorem find_map_replace {key : α → String} {x : α} {i : String} (hx : key x = i) :
    ∀ l : List α, l.any (fun y => key y == key x) = true →
      ((l.map (fun y => if key y == key x then x else y)).find?
        (fun y => key y == i)) = some x
  | [], h => by simp at h
  | y :: l, h => by
      by_cases hk : (key y == key x) = true
      · simp only [List.map_cons, if_pos hk, List.find?_cons]
        rw [hx] at hk ⊢
        simp [beq_iff_eq] at hk
        simp [hk]
      · simp only [List.map_cons, if_neg hk, List.find?_cons]
        have hyi : (key y == i) = false := by
          subst hx
          exact Bool.eq_false_iff.mpr (fun hc => hk hc)
        rw [hyi]
        have htail : l.any (fun z => key z == key x) = true := by
          simp only [List.any_cons, hk, Bool.false_or] at h
          exact h
        exact find_map_replace hx l htail

theorem find_putByKey {key : α → String} {l : List α} {x : α} {i : String}
    (hx : key x = i) (h : l.any (fun y => key y == key x) = true) :
    (putByKey key l x).find? (fun y => key y == i) = some x := by
  unfold putByKey
  rw [if_pos h]
  exact find_map_replace hx l h

theorem putByKey_fresh {key : α → String} {l : List α} {x : α}
    (h : ∀ a ∈ l, key a ≠ key x) : putByKey key l x = l ++ [x] := by
  unfold putByKey
  rw [if_neg]
  simp only [List.any_eq_true, not_exists, not_and, Bool.not_eq_true]
  intro a ha
  exact Bool.eq_false_iff.mpr (fun hc => h a ha (by simpa [beq_iff_eq] using hc))

theorem foldl_putByKey {key : α → String} :
    ∀ (l acc : List α), (∀ x ∈ l, ∀ a ∈ acc, key a ≠ key x) →
      (l.map key).Nodup → l.foldl (putByKey key) acc = acc ++ l
  | [], acc, _, _ => by simp
  | x :: l, acc, hdisj, hnodup => by
      have hput : putByKey key acc x = acc ++ [x] :=
        putByKey_fresh (fun a ha => hdisj x (List.mem_cons_self x l) a ha)
      have hnodup' : key x ∉ l.map key ∧ (l.map key).Nodup := by
        rw [List.map_cons] at hnodup
        exact List.nodup_cons.mp hnodup
      have step := foldl_putByKey l (acc ++ [x])
        (by
          intro z hz a ha
          rcases List.mem_append.mp ha with ha | ha
          · exact hdisj z (List.mem_cons_of_mem x hz) a ha
          · have hax : a = x := List.mem_singleton.mp ha
            subst hax
            intro hc
            exact hnodup'.1 (by
              rw [hc]
              exact List.mem_map_of_mem key hz))
        hnodup'.2
      calc (x :: l).foldl (putByKey key) acc
          = l.foldl (putByKey key) (putByKey key acc x) := by rw [List.foldl_cons]
        _ = l.foldl (putByKey key) (acc ++ [x]) := by rw [hput]
        _ = (acc ++ [x]) ++ l := step
        _ = acc ++ x :: l := by simp

-- ===========================================================================
-- Characterization lemmas for getProductById / updateProduct
-- ===========================================================================

theorem getProductById_none {s : DBState} {id : String}
    (h : lookupProduct s id = none) : getProductById s id = (s, none) := by
  unfold getProductById
  rw [h]

theorem getProductById_modern {s : DBState} {id : String} {p : StoredProduct}
    (h : lookupProduct s id = some p) (hp : p.price ≠ none) :
    getProductById s id = (s, some p) := by
  unfold getProductById
  rw [h]
  simp [hp]

theorem getProductById_legacy {s : DBState} {id : String} {p : StoredProduct}
    (h : lookupProduct s id = some p) (hp : p.price = none) :
    getProductById s id =
      ({ s with
          products :=
            putByKey StoredProduct.id s.products
              ({ p with price := some 0, averageCost := some 0 }) },
       some { p with price := some 0, averageCost := some 0 }) := by
  unfold getProductById
  rw [h]
  simp [hp]

theorem lookupProduct_id {s : DBState} {id : String} {p : StoredProduct}
    (h : lookupProduct s id = some p) : p.id = id := by
  have := List.find?_some h
  simpa [beq_iff_eq] using this

theorem lookupProduct_mem {s : DBState} {id : String} {p : StoredProduct}
    (h : lookupProduct s id = some p) : p ∈ s.products :=
  List.mem_of_find?_eq_some h

/-- After a successful fetch, the returned record is the one stored under
its own id in the returned state. -/
theorem getProductById_find {s : DBState} {id : String} {s1 : DBState} {p : StoredProduct}
    (h : getProductById s id = (s1, some p)) :
    s1.products.find? (fun q => q.id == p.id) = some p := by
  cases hl : lookupProduct s id with
  | none =>
      rw [getProductById_none hl] at h
      exact absurd (congrArg Prod.snd h) (by simp)
  | some p0 =>
      by_cases hp : p0.price = none
      · rw [getProductById_legacy hl hp] at h
        have hs1 := congrArg Prod.fst h
        have hp2 := congrArg Prod.snd h
        simp only [Option.some.injEq] at hs1 hp2
        subst hp2
        subst hs1
        exact find_putByKey rfl
          (List.any_eq_true.mpr ⟨p0, lookupProduct_mem hl, by simp⟩)
      · rw [getProductById_modern hl hp] at h
        have hs1 := congrArg Prod.fst h
        have hp2 := congrArg Prod.snd h
        simp only [Option.some.injEq] at hs1 hp2
        subst hp2
        subst hs1
        have hid := lookupProduct_id hl
        simp only [hid]
        exact hl

theorem updateProduct_found {s : DBState} {id : String} {data : ProductPatch} {now : Date}
    {existing : StoredProduct}
    (h : s.products.find? (fun p => p.id == id) = some existing) :
    updateProduct s id data now =
      .ok ({ s with
              products :=
                putByKey StoredProduct.id s.products
                  (applyPatch existing data now) },
           applyPatch existing data now) := by
  unfold updateProduct
  rw [h]

-- ===========================================================================
-- Transaction unfolding lemmas
-- ===========================================================================

theorem registrarVenta_fetch {s : DBState} {input : VentaInput} {newId : String} {now : Date}
    {s1 : DBState} {p : StoredProduct}
    (h : getProductById s input.productId = (s1, some p)) :
    registrarVenta s input newId now = ventaChecked s1 p input newId now := by
  unfold registrarVenta
  rw [h]

theorem registrarProduccion_fetch {s : DBState} {input : ProduccionInput} {newId : String}
    {now : Date} {s1 : DBState} {p : StoredProduct}
    (h : getProductById s input.productId = (s1, some p)) :
    registrarProduccion s input newId now = produccionChecked s1 p input newId now := by
  unfold registrarProduccion
  rw [h]

theorem registrarAjuste_fetch {s : DBState} {input : AjusteInput} {newId : String} {now : Date}
    {s1 : DBState} {p : StoredProduct}
    (h : getProductById s input.productId = (s1, some p)) :
    registrarAjuste s input newId now = ajusteChecked s1 p input newId now := by
  unfold registrarAjuste
  rw [h]

theorem registrarVenta_notFound {s : DBState} {input : VentaInput} {newId : String} {now : Date}
    (h : lookupProduct s input.productId = none) :
    registrarVenta s input newId now = (s, .error .productNotFound) := by
  unfold registrarVenta
  rw [getProductById_none h]

-- ===========================================================================
-- Quantity invariant (claim C1)
-- ===========================================================================

/-- Every record stored under the given product id has a non-negative
quantity. -/
def quantNonneg (l : List StoredProduct) (pid : String) : Prop :=
  ∀ p ∈ l, p.id = pid → 0 ≤ p.quantity

theorem quantNonneg_putByKey {l : List StoredProduct} {pid : String} {x : StoredProduct}
    (h : quantNonneg l pid) (hx : x.id = pid → 0 ≤ x.quantity) :
    quantNonneg (putByKey StoredProduct.id l x) pid := by
  intro p hp hpid
  rcases mem_putByKey hp with rfl | hp
  · exact hx hpid
  · exact h p hp hpid

theorem quantNonneg_getProductById {s : DBState} {id pid : String}
    (h : quantNonneg s.products pid) :
    quantNonneg (getProductById s id).1.products pid := by
  cases hl : lookupProduct s id with
  | none =>
      rw [getProductById_none hl]
      exact h
  | some p0 =>
      by_cases hp : p0.price = none
      · rw [getProductById_legacy hl hp]
        exact quantNonneg_putByKey h (fun hid => h p0 (lookupProduct_mem hl) hid)
      · rw [getProductById_modern hl hp]
        exact h

theorem quantNonneg_commitUpdate {s2 : DBState} {id : String} {data : ProductPatch}
    {now : Date} {mov : Movement} {pid : String}
    (h : quantNonneg s2.products pid)
    (hq : ∀ existing, s2.products.find? (fun p => p.id == id) = some existing →
      existing.id = pid → 0 ≤ data.quantity.getD existing.quantity) :
    quantNonneg (commitUpdate s2 id data now mov).1.products pid := by
  unfold commitUpdate
  cases hfind : s2.products.find? (fun p => p.id == id) with
  | none =>
      unfold updateProduct
      rw [hfind]
      exact h
  | some existing =>
      rw [updateProduct_found hfind]
      exact quantNonneg_putByKey h (fun hid => hq existing hfind hid)

theorem ventaChecked_preserves {s1 : DBState} {product : StoredProduct} {input : VentaInput}
    {newId : String} {now : Date} {pid : String}
    (h : quantNonneg s1.products pid) :
    quantNonneg (ventaChecked s1 product input newId now).1.products pid := by
  simp only [ventaChecked]
  split
  · exact h
  · split
    · exact h
    · split
      · exact h
      · next hlt hle hpr =>
          refine quantNonneg_commitUpdate h (fun existing hex hid => ?_)
          show (0 : ℚ) ≤ product.quantity - input.quantity
          push_neg at hlt
          linarith

theorem produccionChecked_preserves {s1 : DBState} {product : StoredProduct}
    {input : ProduccionInput} {newId : String} {now : Date} {pid : String}
    (hfind : s1.products.find? (fun q => q.id == product.id) = some product)
    (h : quantNonneg s1.products pid) :
    quantNonneg (produccionChecked s1 product input newId now).1.products pid := by
  simp only [produccionChecked]
  split
  · exact h
  · split
    · exact h
    · next hle hcost =>
        refine quantNonneg_commitUpdate h (fun existing hex hid => ?_)
        show (0 : ℚ) ≤ product.quantity + input.quantity
        have hep : existing = product := Option.some.inj (hex.symm.trans hfind)
        subst hep
        have hpq : (0 : ℚ) ≤ existing.quantity :=
          h existing (List.mem_of_find?_eq_some hfind) hid
        push_neg at hle
        linarith

theorem ajusteChecked_preserves {s1 : DBState} {product : StoredProduct}
    {input : AjusteInput} {newId : String} {now : Date} {pid : String}
    (h : quantNonneg s1.products pid) :
    quantNonneg (ajusteChecked s1 product input newId now).1.products pid := by
  simp only [ajusteChecked]
  split
  · exact h
  · split
    · exact h
    · next hzero hneg =>
        refine quantNonneg_commitUpdate h (fun existing hex hid => ?_)
        show (0 : ℚ) ≤ product.quantity + input.quantity
        push_neg at hneg
        linarith

theorem applyTx_preserves (s : DBState) (e : TxEvent) (pid : String)
    (h : quantNonneg s.products pid) : quantNonneg (applyTx s e).1.products pid := by
  cases e with
  | venta input newId now =>
      show quantNonneg (registrarVenta s input newId now).1.products pid
      cases hg : getProductById s input.productId with
      | mk s1 po =>
          cases po with
          | none =>
              unfold registrarVenta
              rw [hg]
              have := @quantNonneg_getProductById s input.productId pid h
              rw [hg] at this
              exact this
          | some product =>
              rw [registrarVenta_fetch hg]
              have h1 : quantNonneg s1.products pid := by
                have := @quantNonneg_getProductById s input.productId pid h
                rw [hg] at this
                exact this
              exact ventaChecked_preserves h1
  | produccion input newId now =>
      show quantNonneg (registrarProduccion s input newId now).1.products pid
      cases hg : getProductById s input.productId with
      | mk s1 po =>
          cases po with
          | none =>
              unfold registrarProduccion
              rw [hg]
              have := @quantNonneg_getProductById s input.productId pid h
              rw [hg] at this
              exact this
          | some product =>
              rw [registrarProduccion_fetch hg]
              have h1 : quantNonneg s1.products pid := by
                have := @quantNonneg_getProductById s input.productId pid h
                rw [hg] at this
                exact this
              exact produccionChecked_preserves (getProductById_find hg) h1
  | ajuste input newId now =>
      show quantNonneg (registrarAjuste s input newId now).1.products pid
      cases hg : getProductById s input.productId with
      | mk s1 po =>
          cases po with
          | none =>
              unfold registrarAjuste
              rw [hg]
              have := @quantNonneg_getProductById s input.productId pid h
              rw [hg] at this
              exact this
          | some product =>
              rw [registrarAjuste_fetch hg]
              have h1 : quantNonneg s1.products pid := by
                have := @quantNonneg_getProductById s input.productId pid h
                rw [hg] at this
                exact this
              exact ajusteChecked_preserves h1

theorem runTxs_preserves (pid : String) :
    ∀ (es : List TxEvent) (s : DBState), quantNonneg s.products pid →
      quantNonneg (runTxs s es).products pid
  | [], s, h => h
  | e :: es, s, h => runTxs_preserves pid es (applyTx s e).1 (applyTx_preserves s e pid h)

theorem any_of_filter {α} (p q : α → Bool) :
    ∀ l : List α, (l.filter p).any q = l.any (fun a => p a && q a)
  | [] => rfl
  | x :: l => by
      by_cases hx : p x = true
      · simp [List.filter_cons, hx, any_of_filter p q l]
      · simp only [Bool.not_eq_true] at hx
        simp [List.filter_cons, hx, any_of_filter p q l]

-- ===========================================================================
-- Forward and inversion lemmas for commitUpdate
-- ===========================================================================

theorem commitUpdate_snd (s2 : DBState) {id : String} {data : ProductPatch} {now : Date}
    {mov : Movement} {existing : StoredProduct}
    (hfind : s2.products.find? (fun p => p.id == id) = some existing) :
    (commitUpdate s2 id data now mov).2 = .ok (applyPatch existing data now, mov) := by
  unfold commitUpdate
  rw [updateProduct_found hfind]

theorem commitUpdate_not_error {s2 : DBState} {id : String} {data : ProductPatch} {now : Date}
    {mov : Movement} {e : TxError}
    (h : (commitUpdate s2 id data now mov).2 = .error e)
    {existing : StoredProduct}
    (hfind : s2.products.find? (fun p => p.id == id) = some existing) : False := by
  rw [commitUpdate_snd s2 hfind] at h
  exact absurd h (by simp)

theorem commitUpdate_ok {s2 : DBState} {id : String} {data : ProductPatch} {now : Date}
    {mov : Movement} {p' : StoredProduct} {m : Movement}
    (h : (commitUpdate s2 id data now mov).2 = .ok (p', m)) :
    m = mov ∧ ∃ existing, s2.products.find? (fun p => p.id == id) = some existing ∧
      p' = applyPatch existing data now := by
  unfold commitUpdate at h
  cases hfind : s2.products.find? (fun p => p.id == id) with
  | none =>
      unfold updateProduct at h
      rw [hfind] at h
      exact absurd h (by simp)
  | some existing =>
      rw [updateProduct_found hfind] at h
      simp only [Except.ok.injEq, Prod.mk.injEq] at h
      exact ⟨h.2.symm, existing, rfl, h.1.symm⟩

-- ===========================================================================
-- Base64 and serialization round trips
-- ===========================================================================

theorem charToSextet_sextetToChar {n : ℕ} (h : n < 64) :
    charToSextet (sextetToChar n) = n := by
  have hfin : ∀ i : Fin 64, charToSextet (sextetToChar i.val) = i.val := by decide
  exact hfin ⟨n, h⟩

theorem sextetToChar_ne_pad {n : ℕ} (h : n < 64) : ¬ sextetToChar n = '=' := by
  have hfin : ∀ i : Fin 64, ¬ sextetToChar i.val = '=' := by decide
  exact hfin ⟨n, h⟩

theorem atob_btoa : ∀ l : List ℕ, (∀ b ∈ l, b < 256) → atob (btoa l) = l
  | [], _ => rfl
  | [a], h => by
      have ha : a < 256 := h a (by simp)
      rw [show btoa [a] = [sextetToChar (a / 4), sextetToChar (a % 4 * 16), '=', '='] from rfl]
      rw [show atob [sextetToChar (a / 4), sextetToChar (a % 4 * 16), '=', '='] =
          [charToSextet (sextetToChar (a / 4)) * 4 +
            charToSextet (sextetToChar (a % 4 * 16)) / 16] from by simp [atob]]
      rw [charToSextet_sextetToChar (by omega), charToSextet_sextetToChar (by omega)]
      simp only [List.cons.injEq, and_true]
      omega
  | [a, b], h => by
      have ha : a < 256 := h a (by simp)
      have hb : b < 256 := h b (by simp)
      rw [show btoa [a, b] = [sextetToChar (a / 4), sextetToChar (a % 4 * 16 + b / 16),
        sextetToChar (b % 16 * 4), '='] from rfl]
      rw [show atob [sextetToChar (a / 4), sextetToChar (a % 4 * 16 + b / 16),
          sextetToChar (b % 16 * 4), '='] =
        [charToSextet (sextetToChar (a / 4)) * 4 +
          charToSextet (sextetToChar (a % 4 * 16 + b / 16)) / 16,
         charToSextet (sextetToChar (a % 4 * 16 + b / 16)) % 16 * 16 +
          charToSextet (sextetToChar (b % 16 * 4)) / 4] from by
        simp [atob, sextetToChar_ne_pad (show b % 16 * 4 < 64 by omega)]]
      rw [charToSextet_sextetToChar (by omega), charToSextet_sextetToChar (by omega),
        charToSextet_sextetToChar (by omega)]
      simp only [List.cons.injEq, and_true]
      exact ⟨by omega, by omega⟩
  | a :: b :: c :: rest, h => by
      have ha : a < 256 := h a (by simp)
      have hb : b < 256 := h b (by simp)
      have hc : c < 256 := h c (by simp)
      have ih := atob_btoa rest (fun x hx => h x (by simp [hx]))
      rw [show btoa (a :: b :: c :: rest) =
        sextetToChar (a / 4) :: sextetToChar (a % 4 * 16 + b / 16) ::
          sextetToChar (b % 16 * 4 + c / 64) :: sextetToChar (c % 64) :: btoa rest from rfl]
      rw [show atob (sextetToChar (a / 4) :: sextetToChar (a % 4 * 16 + b / 16) ::
          sextetToChar (b % 16 * 4 + c / 64) :: sextetToChar (c % 64) :: btoa rest) =
        (charToSextet (sextetToChar (a / 4)) * 4 +
          charToSextet (sextetToChar (a % 4 * 16 + b / 16)) / 16) ::
        (charToSextet (sextetToChar (a % 4 * 16 + b / 16)) % 16 * 16 +
          charToSextet (sextetToChar (b % 16 * 4 + c / 64)) / 4) ::
        (charToSextet (sextetToChar (b % 16 * 4 + c / 64)) % 4 * 64 +
          charToSextet (sextetToChar (c % 64))) :: atob (btoa rest) from by
        simp [atob, sextetToChar_ne_pad (show b % 16 * 4 + c / 64 < 64 by omega),
          sextetToChar_ne_pad (show c % 64 < 64 by omega)]]
      rw [charToSextet_sextetToChar (by omega), charToSextet_sextetToChar (by omega),
        charToSextet_sextetToChar (by omega), charToSextet_sextetToChar (by omega), ih]
      simp only [List.cons.injEq, and_true]
      exact ⟨by omega, by omega, by omega⟩

theorem serializeProduct_roundtrip (p : StoredProduct) :
    deserializeProduct (serializeProduct p) = p := rfl

theorem serializeMovement_roundtrip (m : Movement) :
    deserializeMovement (serializeMovement m) = m := rfl

theorem serializePhoto_roundtrip (ph : Photo)
    (hb : ∀ b ∈ ph.blob, b < 256) (ht : ∀ b ∈ ph.thumbnail, b < 256) :
    deserializePhoto (serializePhoto ph) = ph := by
  unfold deserializePhoto serializePhoto base64ToBlob blobToBase64 arrayBufferToBase64
    base64ToArrayBuffer
  rw [atob_btoa ph.blob hb, atob_btoa ph.thumbnail ht]
  rfl

/-- Putting each image of a list into an empty store reproduces the
mapped list when the resulting keys are distinct. -/
theorem importList {α β : Type} (key : α → String) (f : β → α) (l : List β)
    (hnodup : (l.map (fun x => key (f x))).Nodup) :
    l.foldl (fun acc x => putByKey key acc (f x)) [] = l.map f := by
  have h1 : l.foldl (fun acc x => putByKey key acc (f x)) ([] : List α) =
      (l.map f).foldl (putByKey key) [] :=
    (List.foldl_map f (putByKey key) l []).symm
  rw [h1, foldl_putByKey (l.map f) [] (by simp) (by rw [List.map_map]; exact hnodup)]
  simp

-- ===========================================================================
-- Claim theorems
-- ===========================================================================

/-- C1: for every product id whose stored records all have quantity ≥ 0,
after any sequence of committed `registrarVenta` / `registrarProduccion` /
`registrarAjuste` calls (each returning normally rather than throwing),
every record stored under that id still has quantity ≥ 0. -/
theorem C1_quantity_invariant (s : DBState) (es : List TxEvent) (pid : String)
    (hq : ∀ p ∈ s.products, p.id = pid → 0 ≤ p.quantity)
    (hcommit : allCommitted s es = true) :
    ∀ p ∈ (runTxs s es).products, p.id = pid → 0 ≤ p.quantity :=
  runTxs_preserves pid es s hq

/-- Witness for C1: a concrete committed sale/production/adjustment run. -/
theorem C1_quantity_invariant_witness :
    (∀ p ∈ stateA.products, p.id = "p1" → 0 ≤ p.quantity) ∧
    allCommitted stateA eventsA = true ∧
    (∀ p ∈ (runTxs stateA eventsA).products, p.id = "p1" → 0 ≤ p.quantity) :=
  ⟨by norm_num [stateA, prodA],
   by
    norm_num [allCommitted, applyTx, eventsA, registrarVenta, registrarProduccion,
      registrarAjuste, getProductById, lookupProduct, stateA, prodA, ventaChecked,
      produccionChecked, ajusteChecked, commitUpdate, updateProduct, putByKey, applyPatch,
      List.find?, List.any, Option.some_ne_none, Except.toBool],
   C1_quantity_invariant stateA eventsA "p1" (by norm_num [stateA, prodA])
     (by
       norm_num [allCommitted, applyTx, eventsA, registrarVenta, registrarProduccion,
         registrarAjuste, getProductById, lookupProduct, stateA, prodA, ventaChecked,
         produccionChecked, ajusteChecked, commitUpdate, updateProduct, putByKey, applyPatch,
         List.find?, List.any, Option.some_ne_none, Except.toBool])⟩

/-- C2: a production of `quantity > 0` at `unitCost ≥ 0` against a stored
product with a present price field and averageCost `c` commits, increases
the stored quantity by the produced quantity, and sets the new
averageCost to `unitCost` exactly when prior stock is zero, otherwise to
the weighted blend `(q·c + Δ·unitCost) / (q + Δ)`. -/
theorem C2_produccion_average (s : DBState) (input : ProduccionInput) (newId : String)
    (now : Date) (p : StoredProduct) (c : ℚ)
    (hfind : lookupProduct s input.productId = some p)
    (hprice : p.price ≠ none) (havg : p.averageCost = some c)
    (hq : 0 < input.quantity) (hc : 0 ≤ input.unitCost) :
    ∃ p' m, (registrarProduccion s input newId now).2 = Except.ok (p', m) ∧
      p'.quantity = p.quantity + input.quantity ∧
      p'.averageCost = some (if p.quantity = 0 then input.unitCost
        else (p.quantity * c + input.quantity * input.unitCost) /
          (p.quantity + input.quantity)) := by
  have hfind2 : s.products.find? (fun q => q.id == p.id) = some p := by
    have hid := lookupProduct_id hfind
    simp only [hid]
    exact hfind
  rw [registrarProduccion_fetch (getProductById_modern hfind hprice)]
  simp only [produccionChecked]
  rw [if_neg (not_le.mpr hq), if_neg (not_lt.mpr hc)]
  exact ⟨_, _, commitUpdate_snd _ hfind2, rfl, by simp [applyPatch, havg]⟩

/-- Witness for C2: producing 5 units at cost 7 into 10 units at cost 4
yields average (10·4 + 5·7) / 15 = 5. -/
theorem C2_produccion_average_witness :
    lookupProduct stateA "p1" = some prodA ∧
    (∃ p' m, (registrarProduccion stateA ⟨"p1", 5, 7, none⟩ "m2" 2).2 = Except.ok (p', m) ∧
      p'.quantity = prodA.quantity + 5 ∧
      p'.averageCost = some (if prodA.quantity = 0 then 7
        else (prodA.quantity * 4 + 5 * 7) / (prodA.quantity + 5))) :=
  ⟨by simp [lookupProduct, stateA, prodA, List.find?],
   C2_produccion_average stateA ⟨"p1", 5, 7, none⟩ "m2" 2 prodA 4
     (by simp [lookupProduct, stateA, prodA, List.find?]) (by simp [prodA])
     (by simp [prodA]) (by norm_num) (by norm_num)⟩

/-- C3: a committed sale leaves the averageCost of the product unchanged
and stamps the averageCostAtTime of the movement with the averageCost as
it was before the sale, while a committed production stamps the
averageCostAtTime of the movement with the newly installed averageCost. -/
theorem C3_cost_stamp_asymmetry :
    (∀ (s : DBState) (input : VentaInput) (newId : String) (now : Date)
       (p p' : StoredProduct) (m : Movement) (c : ℚ),
       lookupProduct s input.productId = some p → p.price ≠ none →
       p.averageCost = some c →
       (registrarVenta s input newId now).2 = Except.ok (p', m) →
       p'.averageCost = some c ∧ m.averageCostAtTime = c) ∧
    (∀ (s : DBState) (input : ProduccionInput) (newId : String) (now : Date)
       (p' : StoredProduct) (m : Movement),
       (registrarProduccion s input newId now).2 = Except.ok (p', m) →
       p'.averageCost = some m.averageCostAtTime) := by
  constructor
  · intro s input newId now p p' m c hfind hprice havg hok
    have hfind2 : s.products.find? (fun q => q.id == p.id) = some p := by
      have hid := lookupProduct_id hfind
      simp only [hid]
      exact hfind
    rw [registrarVenta_fetch (getProductById_modern hfind hprice)] at hok
    simp only [ventaChecked] at hok
    split at hok
    · exact absurd hok (by simp)
    · split at hok
      · exact absurd hok (by simp)
      · split at hok
        · exact absurd hok (by simp)
        · obtain ⟨hm, existing, hexfind, hp'⟩ := commitUpdate_ok hok
          have hep : some p = some existing := hfind2.symm.trans hexfind
          obtain rfl := Option.some.inj hep
          subst hm hp'
          constructor
          · simp [applyPatch, havg]
          · simp [havg]
  · intro s input newId now p' m hok
    cases hg : getProductById s input.productId with
    | mk s1 po =>
        cases po with
        | none =>
            unfold registrarProduccion at hok
            rw [hg] at hok
            exact absurd hok (by simp)
        | some product =>
            rw [registrarProduccion_fetch hg] at hok
            simp only [produccionChecked] at hok
            split at hok
            · exact absurd hok (by simp)
            · split at hok
              · exact absurd hok (by simp)
              · obtain ⟨hm, existing, hexfind, hp'⟩ := commitUpdate_ok hok
                subst hm hp'
                simp [applyPatch]

/-- Witness for C3: sale stamps the pre-sale cost 4 and keeps it;
production stamps the new blended cost it installs. -/
theorem C3_cost_stamp_asymmetry_witness :
    (lookupProduct stateA "p1" = some prodA ∧
     (registrarVenta stateA ⟨"p1", 3, none, none⟩ "m1" 1).2 = Except.ok (saleProdA, saleMovA) ∧
     saleProdA.averageCost = some 4 ∧ saleMovA.averageCostAtTime = 4) ∧
    ((registrarProduccion stateA ⟨"p1", 5, 7, none⟩ "m2" 2).2 = Except.ok (prodProdA, prodMovA) ∧
     prodProdA.averageCost = some prodMovA.averageCostAtTime) :=
  ⟨⟨by simp [lookupProduct, stateA, prodA, List.find?],
    by
     norm_num [registrarVenta, getProductById, lookupProduct, stateA, prodA, ventaChecked,
       commitUpdate, updateProduct, putByKey, applyPatch, saleProdA, saleMovA, List.find?,
       List.any, Option.some_ne_none],
    C3_cost_stamp_asymmetry.1 stateA ⟨"p1", 3, none, none⟩ "m1" 1 prodA saleProdA saleMovA 4
      (by simp [lookupProduct, stateA, prodA, List.find?]) (by simp [prodA]) (by simp [prodA])
      (by
        norm_num [registrarVenta, getProductById, lookupProduct, stateA, prodA, ventaChecked,
          commitUpdate, updateProduct, putByKey, applyPatch, saleProdA, saleMovA, List.find?,
          List.any, Option.some_ne_none])⟩,
   ⟨by
     norm_num [registrarProduccion, getProductById, lookupProduct, stateA, prodA,
       produccionChecked, commitUpdate, updateProduct, putByKey, applyPatch, prodProdA,
       prodMovA, List.find?, List.any, Option.some_ne_none],
    C3_cost_stamp_asymmetry.2 stateA ⟨"p1", 5, 7, none⟩ "m2" 2 prodProdA prodMovA
      (by
        norm_num [registrarProduccion, getProductById, lookupProduct, stateA, prodA,
          produccionChecked, commitUpdate, updateProduct, putByKey, applyPatch, prodProdA,
          prodMovA, List.find?, List.any, Option.some_ne_none])⟩⟩

/-- Counterexample for C4 as stated: (a) a sale of quantity 0 (not > 0,
and not exceeding stock) fails with the invalid-quantity error, which is
not an insufficient-stock error; (b) a failing sale against a record
lacking a price field still rewrites the products store (the migration
write), so the collections are not exactly as before the call. -/
theorem C4_counterexample :
    ((registrarVenta stateA ⟨"p1", 0, none, none⟩ "mX" 1).2 =
        Except.error TxError.invalidQuantity ∧
      isInsufficientStock TxError.invalidQuantity = false) ∧
    ((registrarVenta stateLegacy ⟨"p2", 2, none, none⟩ "mX" 9).2 =
        Except.error TxError.invalidPrice ∧
      (registrarVenta stateLegacy ⟨"p2", 2, none, none⟩ "mX" 9).1.products ≠
        stateLegacy.products) := by
  refine ⟨⟨?_, rfl⟩, ?_, ?_⟩
  · norm_num [registrarVenta, getProductById, lookupProduct, stateA, prodA, ventaChecked,
      commitUpdate, updateProduct, putByKey, applyPatch, List.find?, List.any,
      Option.some_ne_none]
  · norm_num [registrarVenta, getProductById, lookupProduct, stateLegacy, prodLegacy,
      ventaChecked, commitUpdate, updateProduct, putByKey, applyPatch, List.find?, List.any,
      Option.some_ne_none]
  · norm_num [registrarVenta, getProductById, lookupProduct, stateLegacy, prodLegacy,
      ventaChecked, commitUpdate, updateProduct, putByKey, applyPatch, List.find?, List.any,
      Option.some_ne_none]

/-- C4 (amended): `registrarVenta` fails with the product-not-found error
when the id resolves to no record, leaving the state untouched; with the
insufficient-stock error when the requested quantity exceeds the stored
quantity; with the distinct invalid-quantity error (not the
insufficient-stock error) when the requested quantity does not exceed
stock but is not > 0; and otherwise with the invalid-price error exactly
when the effective unit price (the one given by the caller, defaulting
to the migrated record price) is not > 0. On every failure nothing is written to
the movements or photos stores, and the products store is unchanged
except that a record lacking a price field has already been rewritten
with price = 0 and averageCost = 0 by the migration helper inside
`getProductById` even though the call throws. -/
theorem C4_sale_failure_frame (s : DBState) (input : VentaInput) (newId : String) (now : Date)
    (e : TxError) (herr : (registrarVenta s input newId now).2 = Except.error e) :
    (lookupProduct s input.productId = none →
      e = TxError.productNotFound ∧ (registrarVenta s input newId now).1 = s) ∧
    (∀ p, lookupProduct s input.productId = some p →
      (registrarVenta s input newId now).1.movements = s.movements ∧
      (registrarVenta s input newId now).1.photos = s.photos ∧
      ((registrarVenta s input newId now).1.products =
        if p.price = none then
          putByKey StoredProduct.id s.products
            ({ p with price := some 0, averageCost := some 0 })
        else s.products) ∧
      e = (if p.quantity < input.quantity then
             TxError.insufficientStock p.quantity input.quantity
           else if input.quantity ≤ 0 then TxError.invalidQuantity
           else TxError.invalidPrice) ∧
      (¬ p.quantity < input.quantity → ¬ input.quantity ≤ 0 →
        input.unitPrice.getD ((migrateRecord p).price.getD 0) ≤ 0)) := by
  constructor
  · intro hl
    rw [registrarVenta_notFound hl] at herr ⊢
    exact ⟨(Except.error.inj herr).symm, rfl⟩
  · intro p hl
    by_cases hp : p.price = none
    · rw [registrarVenta_fetch (getProductById_legacy hl hp)] at herr ⊢
      rw [if_pos hp]
      have hfind2 : (putByKey StoredProduct.id s.products
          ({ p with price := some 0, averageCost := some 0 })).find?
            (fun q => q.id == p.id) =
          some ({ p with price := some 0, averageCost := some 0 }) :=
        find_putByKey rfl (List.any_eq_true.mpr ⟨p, lookupProduct_mem hl, by simp⟩)
      simp only [ventaChecked, Option.getD_some] at herr ⊢
      by_cases hc1 : p.quantity < input.quantity
      · simp only [if_pos hc1] at herr ⊢
        exact ⟨trivial, trivial, trivial, (Except.error.inj herr).symm, fun hcon _ => absurd hc1 hcon⟩
      · simp only [if_neg hc1] at herr ⊢
        by_cases hc2 : input.quantity ≤ 0
        · simp only [if_pos hc2] at herr ⊢
          exact ⟨trivial, trivial, trivial, (Except.error.inj herr).symm, fun _ hcon => absurd hc2 hcon⟩
        · simp only [if_neg hc2] at herr ⊢
          by_cases hc3 : input.unitPrice.getD 0 ≤ 0
          · simp only [if_pos hc3] at herr ⊢
            refine ⟨trivial, trivial, trivial, (Except.error.inj herr).symm, fun _ _ => ?_⟩
            unfold migrateRecord
            rw [if_pos hp]
            simpa using hc3
          · simp only [if_neg hc3] at herr
            exact (commitUpdate_not_error herr hfind2).elim
    · rw [registrarVenta_fetch (getProductById_modern hl hp)] at herr ⊢
      rw [if_neg hp]
      have hid := lookupProduct_id hl
      have hfind2 : s.products.find? (fun q => q.id == p.id) = some p := by
        simp only [hid]
        exact hl
      simp only [ventaChecked] at herr ⊢
      by_cases hc1 : p.quantity < input.quantity
      · simp only [if_pos hc1] at herr ⊢
        exact ⟨trivial, trivial, trivial, (Except.error.inj herr).symm, fun hcon _ => absurd hc1 hcon⟩
      · simp only [if_neg hc1] at herr ⊢
        by_cases hc2 : input.quantity ≤ 0
        · simp only [if_pos hc2] at herr ⊢
          exact ⟨trivial, trivial, trivial, (Except.error.inj herr).symm, fun _ hcon => absurd hc2 hcon⟩
        · simp only [if_neg hc2] at herr ⊢
          by_cases hc3 : input.unitPrice.getD (p.price.getD 0) ≤ 0
          · simp only [if_pos hc3] at herr ⊢
            refine ⟨trivial, trivial, trivial, (Except.error.inj herr).symm, fun _ _ => ?_⟩
            unfold migrateRecord
            rw [if_neg hp]
            exact hc3
          · simp only [if_neg hc3] at herr
            exact (commitUpdate_not_error herr hfind2).elim

/-- C10: `getProductById` is not read-only: for a stored record lacking a
price field it writes the record back with price = 0 and averageCost = 0
before returning it; for a record with a price field, and for an absent
id, the store is left unchanged. -/
theorem C10_getProductById_migration (s : DBState) (id : String) :
    (lookupProduct s id = none → getProductById s id = (s, none)) ∧
    (∀ p, lookupProduct s id = some p → p.price ≠ none →
      getProductById s id = (s, some p)) ∧
    (∀ p, lookupProduct s id = some p → p.price = none →
      getProductById s id =
        ({ s with
            products :=
              putByKey StoredProduct.id s.products
                ({ p with price := some 0, averageCost := some 0 }) },
         some ({ p with price := some 0, averageCost := some 0 }))) :=
  ⟨fun h => getProductById_none h,
   fun _ h hp => getProductById_modern h hp,
   fun _ h hp => getProductById_legacy h hp⟩

/-- Witness for C10: fetching the legacy record writes the migrated
record back into the store and returns it. -/
theorem C10_getProductById_migration_witness :
    getProductById stateLegacy "p2" =
      ({ stateLegacy with
          products :=
            putByKey StoredProduct.id stateLegacy.products
              ({ prodLegacy with price := some 0, averageCost := some 0 }) },
       some ({ prodLegacy with price := some 0, averageCost := some 0 })) :=
  (C10_getProductById_migration stateLegacy "p2").2.2 prodLegacy
    (by simp [lookupProduct, stateLegacy, prodLegacy, List.find?])
    (by simp [prodLegacy])

/-- C9: `totalProductions` equals the number of production movements plus
the number of products with strictly positive quantity for which no
production movement with that productId exists. -/
theorem C9_totalProductions (s : DBState) :
    (getFinancialSummary s none none).totalProductions =
      (s.movements.filter (fun m => decide (m.type = MovementType.production))).length +
      (s.products.filter (fun p => decide (0 < p.quantity) &&
        !(s.movements.any (fun m =>
            decide (m.type = MovementType.production) && m.productId == p.id)))).length := by
  simp only [getFinancialSummary, filteredMovements, Option.isSome_none, Bool.or_self,
    Bool.false_eq_true, if_false, FinancialSummary.mk.injEq]
  congr 1
  refine congrArg List.length (List.filter_congr ?_)
  intro p _
  rw [any_of_filter]

/-- Witness for C4 (amended): the invalid-quantity rejection of a
quantity-0 sale leaves the movements store unchanged. -/
theorem C4_sale_failure_frame_witness :
    (registrarVenta stateA ⟨"p1", 0, none, none⟩ "mX" 1).1.movements = stateA.movements :=
  (((C4_sale_failure_frame stateA ⟨"p1", 0, none, none⟩ "mX" 1 TxError.invalidQuantity
      (by
        norm_num [registrarVenta, getProductById, lookupProduct, stateA, prodA, ventaChecked,
          commitUpdate, updateProduct, putByKey, applyPatch, List.find?, List.any,
          Option.some_ne_none])).2 prodA
    (by simp [lookupProduct, stateA, prodA, List.find?])).1)

/-- C5: `exportDatabase` followed immediately by `importDatabase` of the
resulting artifact into the empty target reproduces the product,
movement and photo records exactly — every field equal, dates surviving
the ISO round trip and the binary payloads surviving the base64 round
trip. The hypotheses state that the keys of each store are distinct (an
IndexedDB store invariant) and that payload entries are bytes. -/
theorem C5_export_import_roundtrip (s : DBState) (now : Date)
    (hp : (s.products.map StoredProduct.id).Nodup)
    (hm : (s.movements.map Movement.id).Nodup)
    (hph : (s.photos.map Photo.id).Nodup)
    (hbytes : ∀ ph ∈ s.photos, (∀ b ∈ ph.blob, b < 256) ∧ (∀ b ∈ ph.thumbnail, b < 256)) :
    importDatabase emptyDB (exportDatabase s now) = (s, Except.ok ()) := by
  unfold importDatabase exportDatabase
  rw [if_neg (lt_irrefl DB_VERSION)]
  have hP : (s.products.map serializeProduct).foldl
      (fun acc p => putByKey StoredProduct.id acc (deserializeProduct p)) [] = s.products := by
    rw [importList StoredProduct.id deserializeProduct (s.products.map serializeProduct)
      (by rw [List.map_map]; exact hp)]
    rw [List.map_map]
    exact List.map_id s.products
  have hM : (s.movements.map serializeMovement).foldl
      (fun acc m => putByKey Movement.id acc (deserializeMovement m)) [] = s.movements := by
    rw [importList Movement.id deserializeMovement (s.movements.map serializeMovement)
      (by rw [List.map_map]; exact hm)]
    rw [List.map_map]
    exact List.map_id s.movements
  have hPH : (s.photos.map serializePhoto).foldl
      (fun acc sp => putByKey Photo.id acc (deserializePhoto sp)) [] = s.photos := by
    rw [importList Photo.id deserializePhoto (s.photos.map serializePhoto)
      (by rw [List.map_map]; exact hph)]
    rw [List.map_map]
    calc s.photos.map (deserializePhoto ∘ serializePhoto)
        = s.photos.map id := List.map_congr_left (fun ph hmem =>
          serializePhoto_roundtrip ph (hbytes ph hmem).1 (hbytes ph hmem).2)
      _ = s.photos := List.map_id s.photos
  rw [hP, hM, hPH]

/-- Witness for C5: round-tripping a dataset with one product, one sale
movement and one binary photo through export and import. -/
theorem C5_export_import_roundtrip_witness :
    importDatabase emptyDB (exportDatabase stateFull 5) = (stateFull, Except.ok ()) :=
  C5_export_import_roundtrip stateFull 5 (by decide) (by decide) (by decide) (by decide)

/-- C6: every rejected backup import leaves the dataset completely
unmodified — every validation in `readBackupFile` (extension, 50 MB
size bound before parsing, JSON parse, object shape, numeric dbVersion,
the three expected arrays) and the future-schema-version rejection in
`importDatabase` happen before any clear or write; moreover an artifact whose
dbVersion exceeds the running version is rejected with exactly the
future-version error. -/
theorem C6_rejected_import_unchanged (s : DBState) (file : RawFile) (now : Date) :
    (∀ e, (importBackupFlow s file now).2 = Except.error e →
      (importBackupFlow s file now).1 = s) ∧
    (∀ backup, readBackupFile file now = Except.ok backup → DB_VERSION < backup.dbVersion →
      (importBackupFlow s file now).2 = Except.error BackupError.futureVersion ∧
      (importBackupFlow s file now).1 = s) := by
  constructor
  · intro e herr
    unfold importBackupFlow at herr ⊢
    cases hr : readBackupFile file now with
    | error e2 => rfl
    | ok backup =>
        rw [hr] at herr
        replace herr : (importDatabase s backup).2 = Except.error e := herr
        show (importDatabase s backup).1 = s
        unfold importDatabase at herr ⊢
        by_cases hv : DB_VERSION < backup.dbVersion
        · rw [if_pos hv]
        · rw [if_neg hv] at herr
          exact absurd herr (by simp)
  · intro backup hr hv
    unfold importBackupFlow
    rw [hr]
    refine ⟨?_, ?_⟩
    · show (importDatabase s backup).2 = Except.error BackupError.futureVersion
      unfold importDatabase
      rw [if_pos hv]
    · show (importDatabase s backup).1 = s
      unfold importDatabase
      rw [if_pos hv]

/-- Witness for C6: an unparseable file is rejected leaving the store
untouched, and a version-99 artifact is rejected as a future version. -/
theorem C6_rejected_import_unchanged_witness :
    (importBackupFlow stateA badJsonFile 0).2 = Except.error BackupError.invalidJson ∧
    (importBackupFlow stateA badJsonFile 0).1 = stateA ∧
    (importBackupFlow stateA futureFile 0).2 = Except.error BackupError.futureVersion :=
  ⟨by norm_num [importBackupFlow, readBackupFile, badJsonFile, MAX_SIZE_BYTES],
   (C6_rejected_import_unchanged stateA badJsonFile 0).1 BackupError.invalidJson
     (by norm_num [importBackupFlow, readBackupFile, badJsonFile, MAX_SIZE_BYTES]),
   ((C6_rejected_import_unchanged stateA futureFile 0).2 futureBackup
     (by norm_num [readBackupFile, futureFile, futureBackup, MAX_SIZE_BYTES])
     (by norm_num [DB_VERSION, futureBackup])).1⟩

/-- C7: a successful `importDatabase` is a destructive full replace:
the resulting stores hold exactly the records of the artifact (dates decoded,
base64 payloads decoded) and none of the pre-existing records, whatever
the prior state was; the clear-plus-insert of the three stores is the
one atomic state transition this function denotes (the source runs it
inside a single readwrite transaction over the three stores). -/
theorem C7_import_full_replace (s : DBState) (backup : BackupFile)
    (hv : backup.dbVersion ≤ DB_VERSION)
    (hp : (backup.products.map SerializedProduct.id).Nodup)
    (hm : (backup.movements.map SerializedMovement.id).Nodup)
    (hph : (backup.photos.map SerializedPhoto.id).Nodup) :
    importDatabase s backup =
      ({ products := backup.products.map deserializeProduct,
         movements := backup.movements.map deserializeMovement,
         photos := backup.photos.map deserializePhoto }, Except.ok ()) := by
  unfold importDatabase
  rw [if_neg (not_lt.mpr hv)]
  rw [importList StoredProduct.id deserializeProduct backup.products hp,
    importList Movement.id deserializeMovement backup.movements hm,
    importList Photo.id deserializePhoto backup.photos hph]

/-- Witness for C7: importing a version-2 artifact with one product over
a non-empty store replaces everything with the records of the artifact. -/
theorem C7_import_full_replace_witness :
    importDatabase stateSale backupB =
      ({ products := backupB.products.map deserializeProduct,
         movements := backupB.movements.map deserializeMovement,
         photos := backupB.photos.map deserializePhoto }, Except.ok ()) :=
  C7_import_full_replace stateSale backupB (by norm_num [backupB, DB_VERSION])
    (by decide) (by decide) (by decide)

/-- Counterexample for C8 as stated: on a dataset whose sale movements
sum to a negative totalRevenue, the code returns profitMargin 0 while
the claimed formula (totalRevenue − soldProductsCost) / totalRevenue ×
100 yields 100, and totalRevenue is not 0. -/
theorem C8_counterexample :
    (getFinancialSummary stateNegRevenue none none).totalRevenue = -10 ∧
    (getFinancialSummary stateNegRevenue none none).profitMargin = 0 ∧
    ((getFinancialSummary stateNegRevenue none none).totalRevenue -
        sumSoldCost (stateNegRevenue.movements.filter
          (fun m => decide (m.type = MovementType.sale)))) /
      (getFinancialSummary stateNegRevenue none none).totalRevenue * 100 = 100 ∧
    (0 : ℚ) ≠ 100 := by
  refine ⟨?_, ?_, ?_, by norm_num⟩ <;>
    norm_num [getFinancialSummary, filteredMovements, stateNegRevenue, negSaleMov,
      sumTotalAmount, sumSoldCost, sumInventoryValue, List.filter]

/-- C8 (amended): totalRevenue is the sum of totalAmount over the sale
movements; profitMargin equals (totalRevenue − soldProductsCost) /
totalRevenue × 100 — computed from the sales-only cost basis
(salesProfit), not from netProfit — whenever totalRevenue > 0, and is
exactly 0 otherwise (in particular when totalRevenue is 0, avoiding the
division by zero). -/
theorem C8_profit_margin (s : DBState) (startDate endDate : Option Date) :
    (getFinancialSummary s startDate endDate).totalRevenue =
      sumTotalAmount ((filteredMovements s startDate endDate).filter
        (fun m => decide (m.type = MovementType.sale))) ∧
    (0 < (getFinancialSummary s startDate endDate).totalRevenue →
      (getFinancialSummary s startDate endDate).profitMargin =
        ((getFinancialSummary s startDate endDate).totalRevenue -
          sumSoldCost ((filteredMovements s startDate endDate).filter
            (fun m => decide (m.type = MovementType.sale)))) /
          (getFinancialSummary s startDate endDate).totalRevenue * 100) ∧
    (¬ 0 < (getFinancialSummary s startDate endDate).totalRevenue →
      (getFinancialSummary s startDate endDate).profitMargin = 0) := by
  refine ⟨rfl, fun h => ?_, fun h => ?_⟩
  · simp only [getFinancialSummary] at h ⊢
    rw [if_pos h]
  · simp only [getFinancialSummary] at h ⊢
    rw [if_neg h]

/-- Witness for C8 (amended): on a dataset with one 300-revenue sale the
margin equals the salesProfit formula. -/
theorem C8_profit_margin_witness :
    0 < (getFinancialSummary stateSale none none).totalRevenue ∧
    (getFinancialSummary stateSale none none).profitMargin =
      ((getFinancialSummary stateSale none none).totalRevenue -
        sumSoldCost ((filteredMovements stateSale none none).filter
          (fun m => decide (m.type = MovementType.sale)))) /
        (getFinancialSummary stateSale none none).totalRevenue * 100 :=
  ⟨by
    norm_num [getFinancialSummary, filteredMovements, stateSale, saleMovA, prodA,
      sumTotalAmount, sumSoldCost, sumInventoryValue, List.filter],
   (C8_profit_margin stateSale none none).2.1
    (by
      norm_num [getFinancialSummary, filteredMovements, stateSale, saleMovA, prodA,
        sumTotalAmount, sumSoldCost, sumInventoryValue, List.filter])⟩

end ControlStock
